import Mathlib

/-!
Verification of the molgenis/projects-rd-tools repository against its
natural-language specification.

The development shallowly embeds the Python sources:

* `src/rdtools/utils.py` — the `logger` class (run/step logging).  Python
  name resolution is modelled explicitly: the module imports only
  `from pytz import timezone`, so the global name `pytz` used inside
  `logger._now` is unbound.  The set of module-level bindings is a
  parameter (`PyEnv`), instantiated with the actual module namespace
  `pyEnvUtils` for claims about the code as imported, and with a patched
  namespace for claims about the identifier / elapsed-time arithmetic.
* `src/src/rdtools/alissa.py` (identical class in `clients.py`) — the
  Alissa REST client.  The HTTP session is a function from requests to
  responses; `requests.Response.raise_for_status` raises exactly for
  status codes in 400..599.
* `src/src/rdtools/molgenis.py` (identical class in `clients.py`) — the
  Molgenis session extension with CSV import helpers.

Machine-visible effects (temporary CSV writes, HTTP posts, log lines) are
recorded as explicit event traces.  Exceptions are `PyError` values; an
operation on the mutable logger object returns the raised error (if any)
together with the state of the object after the call.
-/

/-- Python exceptions that the embedded code can raise.  `invalidStateError`
is the error kind named by the specification for run-logger misuse; no code
in the repository defines or raises it, the constructor exists only so that
statements about it can be written. -/
inductive PyError where
  | nameError (missing : String)
  | keyError (key : String)
  | typeError
  | attributeError (attr : String)
  | invalidStateError
  | httpError (status : Nat) (body : String)
  | jsonDecodeError

/-- A point in time, as the embedding sees a `datetime.datetime`: the
absolute time in seconds (used for `timedelta.total_seconds`) together with
the renderings `strftime` would produce for the format strings the source
uses. -/
structure Timestamp where
  abs : Int
  ymdCompact : Nat
  ymdDashed : String
  hms : String
  iso : String
deriving DecidableEq

/-- The `strftime` renderings used by `src/rdtools/utils.py`. -/
def Timestamp.strftime (t : Timestamp) (fmt : String) : String :=
  if fmt = "%Y%m%d" then Nat.repr t.ymdCompact
  else if fmt = "%Y-%m-%d" then t.ymdDashed
  else if fmt = "%H:%M:%S" then t.hms
  else if fmt = "%Y-%m-%dT%H:%M:%SZ" then t.iso
  else ""

/-- Values stored in the logger dictionaries: Python `None`, strings,
ints (the embedding uses `Int` for the float `elapsedTime` as well, see the
comment on `logger.stoptime`), `datetime` objects and lists. -/
inductive PyVal where
  | pynone
  | str (s : String)
  | int (n : Int)
  | dt (t : Timestamp)
  | list (xs : List PyVal)

/-- Python dictionary lookup (`d[k]` without the raise): the value at the
first matching key, if any. -/
def lookupKey {α : Type} : List (String × α) → String → Option α
  | [], _ => none
  | (k, v) :: rest, key => if k = key then some v else lookupKey rest key

/-- Python dictionary item assignment `d[k] = v`: replaces the value at an
existing key in place, otherwise appends (insertion order preserved). -/
def setKey {α : Type} : List (String × α) → String → α → List (String × α)
  | [], key, v => [(key, v)]
  | (k, w) :: rest, key, v =>
    if k = key then (key, v) :: rest else (k, w) :: setKey rest key v

/-- A Python dict with string keys holding logger record fields. -/
def PyDict : Type := List (String × PyVal)

/-- The module-level namespace in which the logger methods resolve global
names (Python looks globals up dynamically at call time). -/
structure PyEnv where
  globals : List String

/-- The names actually bound at module level by `src/rdtools/utils.py`:
`from datetime import datetime`, `from pytz import timezone`, and the three
definitions.  In particular the bare name `pytz` is NOT bound. -/
def utilsModuleGlobals : List String :=
  ["datetime", "timezone", "now", "print2", "logger"]

/-- The namespace of `rdtools.utils` as imported. -/
def pyEnvUtils : PyEnv := { globals := utilsModuleGlobals }

/-- The same namespace after a caller has bound the missing name
(for example by executing `rdtools.utils.pytz = pytz`); used to examine the
behaviour of the logger arithmetic when the clock lookup succeeds. -/
def pyEnvUtilsPatched : PyEnv := { globals := utilsModuleGlobals ++ ["pytz"] }

/-- `logger._now()` (utils.py line 49-52): evaluates `pytz.timezone(self.tz)`,
which first resolves the global name `pytz`; an unbound name raises
`NameError`.  On success the current time `t` is returned.  All `_now`
invocations within a single public operation observe the same instant `t`
(the sub-millisecond drift between them is irrelevant to every claim). -/
def logger._nowRaw (env : PyEnv) (t : Timestamp) : Except PyError Timestamp :=
  if env.globals.contains "pytz" then Except.ok t
  else Except.error (PyError.nameError "pytz")

/-- `logger._now(strftime=fmt)`: the same lookup, then `strftime`. -/
def logger._nowFmt (env : PyEnv) (t : Timestamp) (fmt : String) : Except PyError String :=
  (logger._nowRaw env t).map (fun ts => ts.strftime fmt)

/-- The state of a `logger` object (utils.py lines 29-47).  The `_print`
helper writes only to stdout and mutates nothing, so it is not modelled. -/
structure LoggerState where
  silent : Bool
  logname : String
  log : PyDict
  currentStep : PyDict
  processingStepLogs : List PyDict
  printWithTime : Bool
  tz : String

/-- `logger.__init__` (defaults: logname "cosas-daily-import", silent False,
printWithTime True): both dictionaries start empty. -/
def logger.init (logname : String) (silent printWithTime : Bool) : LoggerState :=
  { silent := silent, logname := logname, log := [], currentStep := [],
    processingStepLogs := [], printWithTime := printWithTime,
    tz := "Europe/Amsterdam" }

/-- Python `datetime - value`: defined for two datetimes (a timedelta whose
`total_seconds()` is the difference of the absolute times), a `TypeError`
otherwise. -/
def PyVal.subDt (a : Timestamp) : PyVal → Except PyError Int
  | PyVal.dt b => Except.ok (a.abs - b.abs)
  | _ => Except.error PyError.typeError

/-- `logger.__stoptime__` (utils.py lines 61-67) acting on the dictionary the
named attribute holds.  Statement order follows the source:
`log[endTime] = self._now()`; `log[elapsedTime] = (log[endTime] -
log[startTime]).total_seconds()`; then both times are re-stored as
`%Y-%m-%dT%H:%M:%SZ` strings.  The float produced by `total_seconds` is
modelled as the integer difference of the absolute times.  The first
component of the result is the exception raised, if any; the second is the
dictionary after the call (an exception propagates with the mutations made
before it). -/
def logger.stoptime (env : PyEnv) (t : Timestamp) (d : PyDict) :
    Option PyError × PyDict :=
  match logger._nowRaw env t with
  | Except.error e => (some e, d)
  | Except.ok te =>
    let d1 := setKey d "endTime" (PyVal.dt te)
    match lookupKey d1 "startTime" with
    | none => (some (PyError.keyError "startTime"), d1)
    | some sv =>
      match PyVal.subDt te sv with
      | Except.error e => (some e, d1)
      | Except.ok elapsed =>
        let d2 := setKey d1 "elapsedTime" (PyVal.int elapsed)
        let d3 := setKey d2 "endTime" (PyVal.str (te.strftime "%Y-%m-%dT%H:%M:%SZ"))
        match lookupKey d3 "startTime" with
        | some (PyVal.dt ts) =>
          (none, setKey d3 "startTime" (PyVal.str (ts.strftime "%Y-%m-%dT%H:%M:%SZ")))
        | some _ => (some (PyError.attributeError "strftime"), d3)
        | none => (some (PyError.keyError "startTime"), d3)

/-- `logger.start` (utils.py lines 69-82).  The first expression evaluated is
the dict literal value `self._now(strftime=%Y-%m-%d)`; if the name lookup
raises, `self.log` is left untouched. -/
def logger.start (env : PyEnv) (t : Timestamp) (st : LoggerState) :
    Option PyError × LoggerState :=
  match logger._nowFmt env t "%Y-%m-%d" with
  | Except.error e => (some e, st)
  | Except.ok dstr =>
    let newLog : PyDict :=
      [("identifier", PyVal.str dstr),
       ("name", PyVal.str st.logname),
       ("date", PyVal.str dstr),
       ("databaseName", PyVal.str "cosas"),
       ("startTime", PyVal.dt t),
       ("endTime", PyVal.pynone),
       ("elapsedTime", PyVal.pynone),
       ("steps", PyVal.list []),
       ("comments", PyVal.pynone)]
    (none, { st with log := newLog })

/-- `str(x)` for the values a steps list can hold. -/
def PyVal.pyStr : PyVal → String
  | PyVal.pynone => "None"
  | PyVal.str s => s
  | PyVal.int n => toString n
  | PyVal.dt t => t.iso
  | PyVal.list _ => "[...]"

/-- Python `",".join(map(str, v))`: joins a list; a string is a sequence of
characters, so joining one intersperses commas between its characters; any
other value raises `TypeError` (not iterable). -/
def PyVal.joinCommaStr : PyVal → Except PyError String
  | PyVal.list xs => Except.ok (String.intercalate "," (xs.map PyVal.pyStr))
  | PyVal.str s => Except.ok (String.intercalate "," (s.toList.map (fun c => String.singleton c)))
  | _ => Except.error PyError.typeError

/-- `logger.stop` (utils.py lines 84-88): `self.__stoptime__(name=log)`, then
`self.log[steps] = ",".join(map(str, self.log[steps]))`. -/
def logger.stop (env : PyEnv) (t : Timestamp) (st : LoggerState) :
    Option PyError × LoggerState :=
  match logger.stoptime env t st.log with
  | (some e, d) => (some e, { st with log := d })
  | (none, d) =>
    match lookupKey d "steps" with
    | none => (some (PyError.keyError "steps"), { st with log := d })
    | some v =>
      match PyVal.joinCommaStr v with
      | Except.error e => (some e, { st with log := d })
      | Except.ok s => (none, { st with log := setKey d "steps" (PyVal.str s) })

/-- Python `int(...)` applied to a string of decimal digits (the only
strings the source feeds it: a compact date followed by a counter). -/
def pyIntOfDigits (s : String) : Nat :=
  s.toList.foldl (fun acc c => acc * 10 + (c.toNat - 48)) 0

/-- The step identifier of utils.py line 101:
`int(f"{self._now(strftime=%Y%m%d)}{stepID}")` — the decimal rendering of
the compact date concatenated with the decimal rendering of the counter,
read back as an integer. -/
def stepIdentifier (ymd : Nat) (stepID : Nat) : Int :=
  Int.ofNat (pyIntOfDigits (Nat.repr ymd ++ Nat.repr stepID))

/-- A Python optional-string argument rendered as a dict value. -/
def PyVal.ofOptStr : Option String → PyVal
  | some s => PyVal.str s
  | none => PyVal.pynone

/-- `logger.startProcessingStepLog` (utils.py lines 90-112).
`stepID = len(self.processingStepLogs) + 1`; the dict literal assigned to
`self.currentStep` evaluates `self._now` in its first value, so an unbound
`pytz` raises before `self.currentStep` is reassigned. -/
def logger.startProcessingStepLog (env : PyEnv) (t : Timestamp)
    (type name tablename : Option String) (st : LoggerState) :
    Option PyError × LoggerState :=
  let stepID := st.processingStepLogs.length + 1
  match logger._nowFmt env t "%Y%m%d" with
  | Except.error e => (some e, st)
  | Except.ok dstr =>
    let ident : Int := Int.ofNat (pyIntOfDigits (dstr ++ Nat.repr stepID))
    let cs : PyDict :=
      [("identifier", PyVal.int ident),
       ("date", PyVal.str (t.strftime "%Y-%m-%d")),
       ("name", PyVal.ofOptStr name),
       ("step", PyVal.ofOptStr type),
       ("databaseTable", PyVal.ofOptStr tablename),
       ("startTime", PyVal.dt t),
       ("endTime", PyVal.pynone),
       ("elapsedTime", PyVal.pynone),
       ("status", PyVal.pynone),
       ("comment", PyVal.pynone)]
    (none, { st with currentStep := cs })

/-- `logger.stopProcessingStepLog` (utils.py lines 114-123):
`self.__stoptime__(name=currentStep)`, then
`self.log[steps].append(self.currentStep[identifier])` and
`self.processingStepLogs.append(self.currentStep)`.  Appending to a
non-list `steps` value raises `AttributeError` (no `append`). -/
def logger.stopProcessingStepLog (env : PyEnv) (t : Timestamp) (st : LoggerState) :
    Option PyError × LoggerState :=
  match logger.stoptime env t st.currentStep with
  | (some e, d) => (some e, { st with currentStep := d })
  | (none, d) =>
    match lookupKey st.log "steps" with
    | none => (some (PyError.keyError "steps"), { st with currentStep := d })
    | some (PyVal.list xs) =>
      match lookupKey d "identifier" with
      | none => (some (PyError.keyError "identifier"), { st with currentStep := d })
      | some idv =>
        (none, { st with currentStep := d,
                         log := setKey st.log "steps" (PyVal.list (xs ++ [idv])),
                         processingStepLogs := st.processingStepLogs ++ [d] })
    | some _ => (some (PyError.attributeError "append"), { st with currentStep := d })

/-- Whether a raised error (if any) is the specification's
`InvalidStateError`. -/
def isInvalidStateErr : Option PyError → Bool
  | some PyError.invalidStateError => true
  | _ => false

/-- A sample instant used by concrete scenarios. -/
def t2023 : Timestamp :=
  { abs := 1678924800, ymdCompact := 20230316, ymdDashed := "2023-03-16",
    hms := "00:00:00", iso := "2023-03-16T00:00:00Z" }

/-- A later instant on the same day. -/
def t2023b : Timestamp :=
  { abs := 1678924807, ymdCompact := 20230316, ymdDashed := "2023-03-16",
    hms := "00:00:07", iso := "2023-03-16T00:00:07Z" }

/-- A run started under the patched namespace (clock lookups succeed). -/
def loggerStartedState : LoggerState :=
  (logger.start pyEnvUtilsPatched t2023 (logger.init "cosas-daily-import" false true)).2

/-- A logger with a step in progress: `startProcessingStepLog` has been
called (under the patched namespace) and `stopProcessingStepLog` has not. -/
def loggerInProgressState : LoggerState :=
  (logger.startProcessingStepLog pyEnvUtilsPatched t2023
    (some "import") (some "step1") (some "tbl") loggerStartedState).2

/-- The ascending counters `s, s + 1, ..., s + n - 1`. -/
def countFrom : Nat → Nat → List Nat
  | _, 0 => []
  | s, Nat.succ n => s :: countFrom (s + 1) n

/-- A scripted sequence of `n` processing steps inside one run: each round
calls `startProcessingStepLog` and then `stopProcessingStepLog`, recording
the identifier that the start call stored in `currentStep`.  A round whose
start call raises produces no identifier and ends the sequence. -/
def runStepRounds (env : PyEnv) (t : Timestamp) : Nat → LoggerState → List PyVal
  | 0, _ => []
  | Nat.succ n, st =>
    match logger.startProcessingStepLog env t
        (some "processing") (some "step") (some "table") st with
    | (some _, _) => []
    | (none, st1) =>
      let ident := (lookupKey st1.currentStep "identifier").getD PyVal.pynone
      match logger.stopProcessingStepLog env t st1 with
      | (_, st2) => ident :: runStepRounds env t n st2

/-- One full run on a single calendar day (every clock reading is the
instant `t`): `start` on a fresh logger, then `n` start/stop step rounds.
The result is the list of step identifiers produced. -/
def runIdentifiersInRun (env : PyEnv) (t : Timestamp) (n : Nat) : List PyVal :=
  match logger.start env t (logger.init "cosas-daily-import" false true) with
  | (some _, _) => []
  | (none, st) => runStepRounds env t n st

/-- The run dictionary `logger.start` builds (utils.py lines 71-81) at
instant `t`. -/
def startLogDict (logname : String) (t : Timestamp) : PyDict :=
  [("identifier", PyVal.str t.ymdDashed),
   ("name", PyVal.str logname),
   ("date", PyVal.str t.ymdDashed),
   ("databaseName", PyVal.str "cosas"),
   ("startTime", PyVal.dt t),
   ("endTime", PyVal.pynone),
   ("elapsedTime", PyVal.pynone),
   ("steps", PyVal.list []),
   ("comments", PyVal.pynone)]

/-- The step dictionary `startProcessingStepLog` builds (utils.py lines
100-111) at instant `t` with counter `stepID`. -/
def stepDict (t : Timestamp) (ty nm tb : Option String) (stepID : Nat) : PyDict :=
  [("identifier", PyVal.int (stepIdentifier t.ymdCompact stepID)),
   ("date", PyVal.str t.ymdDashed),
   ("name", PyVal.ofOptStr nm),
   ("step", PyVal.ofOptStr ty),
   ("databaseTable", PyVal.ofOptStr tb),
   ("startTime", PyVal.dt t),
   ("endTime", PyVal.pynone),
   ("elapsedTime", PyVal.pynone),
   ("status", PyVal.pynone),
   ("comment", PyVal.pynone)]

/-- The step dictionary after `__stoptime__` ran on `stepDict` at the same
instant `t`. -/
def stoppedStepDict (t : Timestamp) (ty nm tb : Option String) (stepID : Nat) : PyDict :=
  [("identifier", PyVal.int (stepIdentifier t.ymdCompact stepID)),
   ("date", PyVal.str t.ymdDashed),
   ("name", PyVal.ofOptStr nm),
   ("step", PyVal.ofOptStr ty),
   ("databaseTable", PyVal.ofOptStr tb),
   ("startTime", PyVal.str t.iso),
   ("endTime", PyVal.str t.iso),
   ("elapsedTime", PyVal.int (t.abs - t.abs)),
   ("status", PyVal.pynone),
   ("comment", PyVal.pynone)]

/-- A JSON value, as decoded by `response.json()`. -/
inductive Json where
  | null
  | bool (b : Bool)
  | num (n : Int)
  | str (s : String)
  | arr (xs : List Json)
  | obj (fields : List (String × Json))

/-- An HTTP request as the underlying session issues it: method, full URI,
query parameters, and an optional JSON body. -/
structure HttpRequest where
  method : String
  uri : String
  queryParams : List (String × String)
  jsonBody : Option Json

/-- An HTTP response from the upstream: status code, raw body text, and the
decoded JSON value of the body when the body parses as JSON (`jsonBody` is
the parse of `body`, carried alongside so that the embedding needs no JSON
parser). -/
structure HttpResponse where
  status : Nat
  body : String
  jsonBody : Option Json

/-- `requests.Response.raise_for_status`: raises `HTTPError` (carrying the
status code and the response body) exactly when the status code is in
400..599; informational, success and redirect statuses do not raise. -/
def HttpResponse.raiseForStatus (r : HttpResponse) : Except PyError Unit :=
  if 400 ≤ r.status ∧ r.status < 600 then
    Except.error (PyError.httpError r.status r.body)
  else Except.ok ()

/-- `requests.Response.json()`: the decoded body, or `JSONDecodeError` when
the body is not JSON. -/
def HttpResponse.json (r : HttpResponse) : Except PyError Json :=
  match r.jsonBody with
  | some j => Except.ok j
  | none => Except.error PyError.jsonDecodeError

/-- `response.raise_for_status(); return response.json()` — the tail of
every Alissa request method. -/
def fetchJson (r : HttpResponse) : Except PyError Json :=
  r.raiseForStatus.bind (fun _ => r.json)

/-- The state of an `Alissa` client (alissa.py lines 44-71, identical class
in clients.py).  The OAuth2 session object is modelled as the function
`up : HttpRequest → HttpResponse` each method receives; the token exchange
performed by `__init__` happens inside that session and is outside these
claims. -/
structure Alissa where
  host : String
  apiUrl : String

/-- `Alissa.__init__`: stores the host and the versioned base path
`{host}/interpret/api/2`. -/
def Alissa.init (host : String) : Alissa :=
  { host := host, apiUrl := host ++ "/interpret/api/2" }

/-- `Alissa._formatOptionalParams` (alissa.py lines 74-84): keeps the
entries of `locals()` whose key is not `self` and whose value is not None. -/
def Alissa._formatOptionalParams (params : List (String × Option String)) :
    List (String × String) :=
  params.filterMap (fun p =>
    if p.fst = "self" then none else p.snd.map (fun v => (p.fst, v)))

/-- `Alissa._get` (alissa.py lines 86-95): issues a GET to
`{apiUrl}/{endpoint}`, raises for a 4xx/5xx status, returns the decoded
JSON body.  The request issued is returned alongside the outcome. -/
def Alissa._get (a : Alissa) (up : HttpRequest → HttpResponse)
    (endpoint : String) (params : List (String × String)) :
    HttpRequest × Except PyError Json :=
  let req : HttpRequest :=
    { method := "GET", uri := a.apiUrl ++ "/" ++ endpoint,
      queryParams := params, jsonBody := none }
  (req, fetchJson (up req))

/-- `Alissa._post` (alissa.py lines 97-107): issues a POST to
`{apiUrl}/{endpoint}` with a JSON body (the `data` argument is always None
at the call sites), raises for a 4xx/5xx status, returns the decoded JSON
body. -/
def Alissa._post (a : Alissa) (up : HttpRequest → HttpResponse)
    (endpoint : String) (json : Option Json) :
    HttpRequest × Except PyError Json :=
  let req : HttpRequest :=
    { method := "POST", uri := a.apiUrl ++ "/" ++ endpoint,
      queryParams := [], jsonBody := json }
  (req, fetchJson (up req))

/-- The f-string rendering of an optional string (`None` renders as
"None"). -/
def pyStrOfOpt : Option String → String
  | some s => s
  | none => "None"

/-- `Alissa.getPatientByInternalId` (alissa.py lines 109-120): its own GET
to `{apiUrl}/patients/{patientId}` followed by the same raise-then-decode
tail. -/
def Alissa.getPatientByInternalId (a : Alissa) (up : HttpRequest → HttpResponse)
    (patientId : Option String) : HttpRequest × Except PyError Json :=
  let req : HttpRequest :=
    { method := "GET", uri := a.apiUrl ++ "/patients/" ++ pyStrOfOpt patientId,
      queryParams := [], jsonBody := none }
  (req, fetchJson (up req))

/-- `Alissa.getPatients` (alissa.py lines 122-154): the eight optional
filters from `locals()` (whose `self` entry — here a placeholder string for
the instance — is removed by the key filter) pass through
`_formatOptionalParams`, then a GET on `patients`. -/
def Alissa.getPatients (a : Alissa) (up : HttpRequest → HttpResponse)
    (accessionNumber createdAfter createdBefore createdBy familyIdentifier
     lastUpdatedAfter lastUpdatedBefore lastUpdatedBy : Option String) :
    HttpRequest × Except PyError Json :=
  let locals : List (String × Option String) :=
    [("self", some "Alissa instance"),
     ("accessionNumber", accessionNumber),
     ("createdAfter", createdAfter),
     ("createdBefore", createdBefore),
     ("createdBy", createdBy),
     ("familyIdentifier", familyIdentifier),
     ("lastUpdatedAfter", lastUpdatedAfter),
     ("lastUpdatedBefore", lastUpdatedBefore),
     ("lastUpdatedBy", lastUpdatedBy)]
  let params := Alissa._formatOptionalParams locals
  Alissa._get a up "patients" params

/-- `Alissa.getPatientAnalyses` (alissa.py lines 156-164). -/
def Alissa.getPatientAnalyses (a : Alissa) (up : HttpRequest → HttpResponse)
    (patientId : String) : HttpRequest × Except PyError Json :=
  Alissa._get a up ("patients/" ++ patientId ++ "/analyses") []

/-- `Alissa.getPatientVariantExportId` (alissa.py lines 166-187): POST to
`patient_analyses/{analysisId}/molecular_variants/exports` with JSON body
`{markedForReview, markedIncludeInReport}`. -/
def Alissa.getPatientVariantExportId (a : Alissa) (up : HttpRequest → HttpResponse)
    (analysisId : Int) (markedForReview markedIncludeInReport : Bool) :
    HttpRequest × Except PyError Json :=
  let data := Json.obj
    [("markedForReview", Json.bool markedForReview),
     ("markedIncludeInReport", Json.bool markedIncludeInReport)]
  let api := "patient_analyses/" ++ toString analysisId ++ "/molecular_variants/exports"
  Alissa._post a up api (some data)

/-- The call `getPatientVariantExportId(analysisId)` with both optional
flags omitted: the source signature defaults `markedForReview=True` and
`markedIncludeInReport=True`. -/
def Alissa.getPatientVariantExportIdDefault (a : Alissa)
    (up : HttpRequest → HttpResponse) (analysisId : Int) :
    HttpRequest × Except PyError Json :=
  Alissa.getPatientVariantExportId a up analysisId true true

/-- `Alissa.getPatientVariantExportData` (alissa.py lines 189-202): GET to
`patient_analyses/{analysisId}/molecular_variants/exports/{exportId}`. -/
def Alissa.getPatientVariantExportData (a : Alissa) (up : HttpRequest → HttpResponse)
    (analysisId : Int) (exportId : String) : HttpRequest × Except PyError Json :=
  Alissa._get a up
    ("patient_analyses/" ++ toString analysisId
      ++ "/molecular_variants/exports/" ++ exportId) []

/-- The mock upstream of the specification scenario: HTTP 201 with body
`{"exportId": "abc123"}`. -/
def upExportMock : HttpRequest → HttpResponse :=
  fun _ => { status := 201, body := "\x7b\x22exportId\x22: \x22abc123\x22\x7d",
             jsonBody := some (Json.obj [("exportId", Json.str "abc123")]) }

/-- A cell of a tabular object: a string value, the pandas missing-value
marker `np.nan` (what `datatable.to_pandas()` uses for missing cells), or
Python `None`. -/
inductive Cell where
  | str (s : String)
  | nan
  | pynone
deriving DecidableEq

/-- A pandas dataframe: column names and rows of cells. -/
structure DataFrame where
  columns : List String
  rows : List (List Cell)

/-- A datatable Frame; `to_pandas()` yields the same tabular data with
missing cells as `nan`. -/
structure DataTable where
  frame : DataFrame

/-- `datatable.to_pandas()`: the conversion preserves the cells. -/
def DataTable.to_pandas (dt : DataTable) : DataFrame := dt.frame

/-- `.replace({np.nan: None})` (molgenis.py lines 34 and 44): every `nan`
cell becomes `None`; other cells are unchanged. -/
def replaceNanNone (df : DataFrame) : DataFrame :=
  { df with rows := df.rows.map (List.map (fun c =>
      if c = Cell.nan then Cell.pynone else c)) }

/-- The `na_rep` value of `pandas.DataFrame.to_csv` at its default: missing
values (`None`/`nan`) are written as the empty token. -/
def naRepr : String := ""

/-- The text a cell contributes to the CSV before quoting. -/
def cellText : Cell → String
  | Cell.str s => s
  | Cell.nan => naRepr
  | Cell.pynone => naRepr

/-- Doubling every embedded double quote, character by character. -/
def escapeQuotes (s : String) : String :=
  String.mk (s.data.foldr
    (fun c acc => if c = '\x22' then '\x22' :: '\x22' :: acc else c :: acc) [])

/-- CSV field quoting under `quoting=csv.QUOTE_ALL`: every field is wrapped
in double quotes, with embedded double quotes doubled. -/
def csvQuote (s : String) : String :=
  "\x22" ++ escapeQuotes s ++ "\x22"

/-- The rows of quoted fields `to_csv(index=False, quoting=csv.QUOTE_ALL)`
emits: the header row from the column names, then one row per data row. -/
def csvFieldRows (df : DataFrame) : List (List String) :=
  df.columns.map csvQuote
    :: df.rows.map (fun r => r.map (fun c => csvQuote (cellText c)))

/-- Joining the field rows into the file: fields comma-separated, a
trailing newline per row. -/
def csvRender (rows : List (List String)) : String :=
  String.join (rows.map (fun fs => String.intercalate "," fs ++ "\n"))

/-- `pandas.DataFrame.to_csv(path, index=False, quoting=csv.QUOTE_ALL)`:
the file content written. -/
def pandasToCsv (df : DataFrame) : String := csvRender (csvFieldRows df)

/-- `Molgenis._dfToCsv` (molgenis.py lines 37-45): replace `nan` by `None`,
then write with every field quoted.  Returns the CSV text written to the
given path. -/
def Molgenis._dfToCsv (df : DataFrame) : String :=
  pandasToCsv (replaceNanNone df)

/-- `Molgenis._datatableToCsv` (molgenis.py lines 27-35): `to_pandas()`
first, then the same replace-and-write. -/
def Molgenis._datatableToCsv (dt : DataTable) : String :=
  pandasToCsv (replaceNanNone (DataTable.to_pandas dt))

/-- Machine-visible effects of an import call, in order: the temporary CSV
write, the HTTP POST through the wrapped session, and each console log
line. -/
inductive Event where
  | wroteTempCsv (filepath : String) (content : String)
  | httpPost (req : HttpRequest)
  | logLine (msg : String)

/-- The message text `print2` writes (its arguments joined by single
spaces; the `[HH:MM:SS.mmm]` prefix is timestamp decoration). -/
def print2Msg (args : List String) : String := String.intercalate " " args

/-- The state of a `Molgenis` session extension: the attribute dictionary
of the instance.  `base` holds whatever `molgenis.client.Session.__init__`
assigned (`_root_url`, `_session`, `_headers`, ...). -/
structure MolgenisState where
  attrs : List (String × String)

/-- `Molgenis.__init__` (molgenis.py lines 23-25): after the base class
constructor, assigns `self.fileImportEndpoint` to the root URL followed by
`plugin/importwizard/importFile` — and nothing else. -/
def Molgenis.init (base : List (String × String)) : MolgenisState :=
  { attrs := setKey base "fileImportEndpoint"
      ((lookupKey base "_root_url").getD "" ++ "plugin/importwizard/importFile") }

/-- The multipart import request `importDatatableAsCsv` posts: the
file-import endpoint with the fixed import-mode parameters. -/
def Molgenis.importRequest (st : MolgenisState) : HttpRequest :=
  { method := "POST",
    uri := (lookupKey st.attrs "fileImportEndpoint").getD "",
    queryParams := [("action", "add_update_existing"), ("metadataAction", "ignore")],
    jsonBody := none }

/-- `Molgenis.importDatatableAsCsv` (molgenis.py lines 47-75): writes the
datatable to `{tmpdir}/{pkg_entity}.csv`, posts it to
`self.fileImportEndpoint` (multipart field `file`, parameters
`action=add_update_existing`, `metadataAction=ignore`), logs a success or
failure line depending on whether the status is 2xx, and returns the raw
response in both cases — it never raises on a non-2xx status. -/
def Molgenis.importDatatableAsCsv (st : MolgenisState)
    (up : HttpRequest → HttpResponse) (tmpdir pkg_entity : String)
    (dt : DataTable) : List Event × Except PyError HttpResponse :=
  let filepath := tmpdir ++ "/" ++ pkg_entity ++ ".csv"
  let content := Molgenis._datatableToCsv dt
  let ev1 := Event.wroteTempCsv filepath content
  match lookupKey st.attrs "fileImportEndpoint" with
  | none => ([ev1], Except.error (PyError.attributeError "fileImportEndpoint"))
  | some url =>
    let req : HttpRequest :=
      { method := "POST", uri := url,
        queryParams := [("action", "add_update_existing"), ("metadataAction", "ignore")],
        jsonBody := none }
    let response := up req
    if response.status / 100 != 2 then
      ([ev1, Event.httpPost req,
        Event.logLine (print2Msg ["Failed to import data into", pkg_entity,
          "(", toString response.status, ")"])],
       Except.ok response)
    else
      ([ev1, Event.httpPost req,
        Event.logLine (print2Msg ["Imported data into", pkg_entity])],
       Except.ok response)

/-- `Molgenis.importPandasAsCsv` (molgenis.py lines 77-106): writes the
dataframe to `{tmpdir}/{pkg_entity}.csv`, then evaluates
`self.fileImportApi` to build the post — an attribute no constructor ever
assigns, so the lookup raises `AttributeError` before any request is
issued. -/
def Molgenis.importPandasAsCsv (st : MolgenisState)
    (up : HttpRequest → HttpResponse) (tmpdir pkg_entity : String)
    (df : DataFrame) : List Event × Except PyError HttpResponse :=
  let filepath := tmpdir ++ "/" ++ pkg_entity ++ ".csv"
  let content := Molgenis._dfToCsv df
  let ev1 := Event.wroteTempCsv filepath content
  match lookupKey st.attrs "fileImportApi" with
  | none => ([ev1], Except.error (PyError.attributeError "fileImportApi"))
  | some url =>
    let req : HttpRequest :=
      { method := "POST", uri := url,
        queryParams := [("action", "add_update_existing"), ("metadataAction", "ignore")],
        jsonBody := none }
    let response := up req
    if response.status / 100 != 2 then
      ([ev1, Event.httpPost req,
        Event.logLine (print2Msg ["Failed to import data into", pkg_entity,
          "(", toString response.status, ")"])],
       Except.ok response)
    else
      ([ev1, Event.httpPost req,
        Event.logLine (print2Msg ["Imported data into", pkg_entity])],
       Except.ok response)

/-- The attributes `molgenis.client.Session.__init__` leaves on the
instance for a sample host (no `fileImportApi` among them). -/
def molgenisBaseAttrs : List (String × String) :=
  [("_root_url", "https://db.test/"),
   ("_session", "requests-session"),
   ("_headers", "token-headers")]

/-- A one-row dataframe with a missing value in its second cell. -/
def dfSample : DataFrame :=
  { columns := ["id", "value"], rows := [[Cell.str "A1", Cell.nan]] }

/-- A one-row datatable with a missing value in its second cell. -/
def dtSample : DataTable := { frame := dfSample }

/-- The only error `logger._now` can raise is the `NameError` for the unbound
global `pytz`. -/
theorem nowRaw_error_eq (env : PyEnv) (t : Timestamp) (e : PyError)
    (h : logger._nowRaw env t = Except.error e) : e = PyError.nameError "pytz" := by
  unfold logger._nowRaw at h
  split at h
  · cases h
  · cases h; rfl

/-- Subtracting a non-datetime from a datetime raises exactly `TypeError`. -/
theorem subDt_error_eq (te : Timestamp) (sv : PyVal) (e : PyError)
    (h : PyVal.subDt te sv = Except.error e) : e = PyError.typeError := by
  cases sv <;> simp [PyVal.subDt] at h <;> exact h.symm

/-- No code path of `__stoptime__` raises the specification's
`InvalidStateError`. -/
theorem stoptime_not_invalid (env : PyEnv) (t : Timestamp) (d : PyDict) :
    isInvalidStateErr (logger.stoptime env t d).1 = false := by
  unfold logger.stoptime
  split
  · rename_i e he
    have h1 := nowRaw_error_eq env t e he
    subst h1
    rfl
  · rename_i te he
    dsimp only
    split
    · rfl
    · rename_i sv hsv
      split
      · rename_i e he2
        have h2 := subDt_error_eq te sv e he2
        subst h2
        rfl
      · rename_i elapsed he2
        split <;> rfl

/-- The only error `",".join(map(str, v))` can raise here is `TypeError`. -/
theorem joinComma_error_eq (v : PyVal) (e : PyError)
    (h : PyVal.joinCommaStr v = Except.error e) : e = PyError.typeError := by
  cases v <;> simp [PyVal.joinCommaStr] at h <;> exact h.symm

/-- No code path of `logger.stop` raises the specification's
`InvalidStateError`. -/
theorem stop_not_invalid (env : PyEnv) (t : Timestamp) (st : LoggerState) :
    isInvalidStateErr (logger.stop env t st).1 = false := by
  have hst := stoptime_not_invalid env t st.log
  unfold logger.stop
  cases hp : logger.stoptime env t st.log with
  | mk eo d =>
    rw [hp] at hst
    cases eo with
    | some e => exact hst
    | none =>
      dsimp only
      cases hl : lookupKey d "steps" with
      | none => rfl
      | some v =>
        dsimp only
        cases hj : PyVal.joinCommaStr v with
        | error e =>
          have h2 := joinComma_error_eq v e hj
          subst h2
          rfl
        | ok s => rfl

/-- No code path of `logger.stopProcessingStepLog` raises the
specification's `InvalidStateError`. -/
theorem stopStep_not_invalid (env : PyEnv) (t : Timestamp) (st : LoggerState) :
    isInvalidStateErr (logger.stopProcessingStepLog env t st).1 = false := by
  have hst := stoptime_not_invalid env t st.currentStep
  unfold logger.stopProcessingStepLog
  cases hp : logger.stoptime env t st.currentStep with
  | mk eo d =>
    rw [hp] at hst
    cases eo with
    | some e => exact hst
    | none =>
      dsimp only
      cases hl : lookupKey st.log "steps" with
      | none => rfl
      | some v =>
        cases v with
        | list xs =>
          cases hi : lookupKey d "identifier" with
          | none => rfl
          | some idv => rfl
        | pynone => rfl
        | str s => rfl
        | int n => rfl
        | dt ts => rfl

/-- No code path of `logger.startProcessingStepLog` raises the
specification's `InvalidStateError`. -/
theorem startStep_not_invalid (env : PyEnv) (t : Timestamp)
    (ty nm tb : Option String) (st : LoggerState) :
    isInvalidStateErr (logger.startProcessingStepLog env t ty nm tb st).1 = false := by
  unfold logger.startProcessingStepLog logger._nowFmt
  cases hc : logger._nowRaw env t with
  | error e =>
    have h1 := nowRaw_error_eq env t e hc
    subst h1
    rfl
  | ok te => rfl

/-- Claim C1: with the module namespace of `src/rdtools/utils.py` as imported
(`from pytz import timezone` binds `timezone`, never `pytz`), every public
run-logger operation that obtains a timestamp — `start`, `stop`,
`startProcessingStepLog` and `stopProcessingStepLog` — raises
`NameError` for the unbound name `pytz` before completing, leaving the
logger state untouched: no run or step record is ever created or stopped. -/
theorem claim_C1_all_logger_ops_raise_name_error :
    ∀ (t : Timestamp) (st : LoggerState) (ty nm tb : Option String),
    logger.start pyEnvUtils t st = (some (PyError.nameError "pytz"), st)
    ∧ logger.stop pyEnvUtils t st = (some (PyError.nameError "pytz"), st)
    ∧ logger.startProcessingStepLog pyEnvUtils t ty nm tb st
        = (some (PyError.nameError "pytz"), st)
    ∧ logger.stopProcessingStepLog pyEnvUtils t st
        = (some (PyError.nameError "pytz"), st) :=
  fun _ _ _ _ _ => ⟨rfl, rfl, rfl, rfl⟩

/-- Claim C2, counterexample to the claim as stated: on a fresh logger,
`stop` before `start` and `stopProcessingStepLog` before
`startProcessingStepLog` do fail, but the exception raised is
`NameError("pytz")`, not the specification's `InvalidStateError`. -/
theorem claim_C2_counterexample_not_invalid_state :
    (logger.stop pyEnvUtils t2023 (logger.init "cosas-daily-import" false true)).1
      = some (PyError.nameError "pytz")
    ∧ (logger.stopProcessingStepLog pyEnvUtils t2023
        (logger.init "cosas-daily-import" false true)).1
      = some (PyError.nameError "pytz")
    ∧ isInvalidStateErr (some (PyError.nameError "pytz")) = false :=
  ⟨rfl, rfl, rfl⟩

/-- Claim C2, amended: calling `stop` before `start`, or
`stopProcessingStepLog` before any `startProcessingStepLog`, fails by
raising an error that is propagated to the caller — but the error is
`NameError` for the unbound global `pytz` (the class performs no state
check), and no code path of either operation, under any module namespace,
raises `InvalidStateError`. -/
theorem claim_C2_amended_stop_before_start_raises_name_error :
    ∀ (t : Timestamp) (logname : String) (silent pwt : Bool),
    logger.stop pyEnvUtils t (logger.init logname silent pwt)
      = (some (PyError.nameError "pytz"), logger.init logname silent pwt)
    ∧ logger.stopProcessingStepLog pyEnvUtils t (logger.init logname silent pwt)
      = (some (PyError.nameError "pytz"), logger.init logname silent pwt)
    ∧ (∀ (env : PyEnv) (st : LoggerState),
        isInvalidStateErr (logger.stop env t st).1 = false
        ∧ isInvalidStateErr (logger.stopProcessingStepLog env t st).1 = false) :=
  fun t _ _ _ =>
    ⟨rfl, rfl, fun env st => ⟨stop_not_invalid env t st, stopStep_not_invalid env t st⟩⟩

/-- Claim C3, counterexample to the claim as stated: with a step already in
progress (started at `t2023`), a second `startProcessingStepLog` never
raises `InvalidStateError`.  Under the module namespace as imported it
raises `NameError("pytz")` (leaving the step untouched); under a namespace
in which `pytz` is bound it succeeds outright and replaces the in-progress
step, altering its start time from `t2023` to the later instant `t2023b`. -/
theorem claim_C3_counterexample_second_start_step :
    lookupKey loggerInProgressState.currentStep "startTime" = some (PyVal.dt t2023)
    ∧ logger.startProcessingStepLog pyEnvUtils t2023b
        (some "import") (some "step2") (some "tbl") loggerInProgressState
      = (some (PyError.nameError "pytz"), loggerInProgressState)
    ∧ isInvalidStateErr (some (PyError.nameError "pytz")) = false
    ∧ (logger.startProcessingStepLog pyEnvUtilsPatched t2023b
        (some "import") (some "step2") (some "tbl") loggerInProgressState).1 = none
    ∧ lookupKey (logger.startProcessingStepLog pyEnvUtilsPatched t2023b
        (some "import") (some "step2") (some "tbl") loggerInProgressState).2.currentStep
        "startTime" = some (PyVal.dt t2023b)
    ∧ (t2023b.abs == t2023.abs) = false :=
  ⟨rfl, rfl, rfl, rfl, rfl, rfl⟩

/-- Claim C3, amended: calling `startProcessingStepLog` while a step is
already in progress does not raise `InvalidStateError` — the class performs
no such check under any module namespace.  With the namespace as imported
the call fails with `NameError` for the unbound `pytz`, raised before
`self.currentStep` is reassigned, so the in-progress step (its start time
in particular) is left unchanged. -/
theorem claim_C3_amended_start_step_no_invalid_state :
    ∀ (t : Timestamp) (ty nm tb : Option String) (st : LoggerState),
    logger.startProcessingStepLog pyEnvUtils t ty nm tb st
      = (some (PyError.nameError "pytz"), st)
    ∧ (∀ (env : PyEnv),
        isInvalidStateErr (logger.startProcessingStepLog env t ty nm tb st).1 = false) :=
  fun t ty nm tb st => ⟨rfl, fun env => startStep_not_invalid env t ty nm tb st⟩

/-- Looking up the key just assigned returns the assigned value. -/
theorem lookupKey_setKey_self {α : Type} (d : List (String × α)) (k : String) (v : α) :
    lookupKey (setKey d k v) k = some v := by
  induction d with
  | nil => simp [setKey, lookupKey]
  | cons p rest ih =>
    obtain ⟨k1, w⟩ := p
    by_cases h : k1 = k
    · subst h; simp [setKey, lookupKey]
    · simp [setKey, lookupKey, h, ih]

/-- Assignment to one key leaves lookups of a different key unchanged. -/
theorem lookupKey_setKey_ne {α : Type} (d : List (String × α)) (k k' : String) (v : α)
    (h : k' ≠ k) : lookupKey (setKey d k v) k' = lookupKey d k' := by
  have h2 : ¬ (k = k') := fun he => h he.symm
  induction d with
  | nil => simp [setKey, lookupKey, h2]
  | cons p rest ih =>
    obtain ⟨k1, w⟩ := p
    by_cases h1 : k1 = k
    · subst h1
      simp [setKey, lookupKey, h2]
    · simp [setKey, lookupKey, h1, ih]

/-- When the clock name resolves, `_now` returns the current instant. -/
theorem nowRaw_ok (env : PyEnv) (t : Timestamp)
    (hB : env.globals.contains "pytz" = true) :
    logger._nowRaw env t = Except.ok t := by
  unfold logger._nowRaw
  rw [hB]
  rfl

/-- When the clock name resolves, `_now(strftime=fmt)` returns the
formatted instant. -/
theorem nowFmt_ok (env : PyEnv) (t : Timestamp) (fmt : String)
    (hB : env.globals.contains "pytz" = true) :
    logger._nowFmt env t fmt = Except.ok (t.strftime fmt) := by
  unfold logger._nowFmt
  rw [nowRaw_ok env t hB]
  rfl

/-- With the clock name bound, `logger.start` succeeds and installs the run
dictionary. -/
theorem start_ok (env : PyEnv) (t : Timestamp) (st : LoggerState)
    (hB : env.globals.contains "pytz" = true) :
    logger.start env t st = (none, { st with log := startLogDict st.logname t }) := by
  unfold logger.start
  rw [nowFmt_ok env t "%Y-%m-%d" hB]
  rfl

/-- With the clock name bound, `startProcessingStepLog` succeeds: the new
current step carries the counter `len(processingStepLogs) + 1` inside its
identifier. -/
theorem startStep_ok (env : PyEnv) (t : Timestamp) (ty nm tb : Option String)
    (st : LoggerState) (hB : env.globals.contains "pytz" = true) :
    logger.startProcessingStepLog env t ty nm tb st
      = (none, { st with
          currentStep := stepDict t ty nm tb (st.processingStepLogs.length + 1) }) := by
  unfold logger.startProcessingStepLog
  rw [nowFmt_ok env t "%Y%m%d" hB]
  rfl

/-- With the clock name bound, `__stoptime__` on a freshly started step
succeeds. -/
theorem stoptime_stepDict (env : PyEnv) (t : Timestamp) (ty nm tb : Option String)
    (stepID : Nat) (hB : env.globals.contains "pytz" = true) :
    logger.stoptime env t (stepDict t ty nm tb stepID)
      = (none, stoppedStepDict t ty nm tb stepID) := by
  unfold logger.stoptime
  rw [nowRaw_ok env t hB]
  rfl

/-- With the clock name bound and a run in progress (the run dictionary has
a `steps` list), `stopProcessingStepLog` on a freshly started step appends
the step identifier to the run and the step record to the history. -/
theorem stopStep_after_start (env : PyEnv) (t : Timestamp) (ty nm tb : Option String)
    (st : LoggerState) (xs : List PyVal) (stepID : Nat)
    (hB : env.globals.contains "pytz" = true)
    (h : lookupKey st.log "steps" = some (PyVal.list xs)) :
    logger.stopProcessingStepLog env t { st with currentStep := stepDict t ty nm tb stepID }
      = (none, { st with
          currentStep := stoppedStepDict t ty nm tb stepID,
          log := setKey st.log "steps"
            (PyVal.list (xs ++ [PyVal.int (stepIdentifier t.ymdCompact stepID)])),
          processingStepLogs := st.processingStepLogs ++ [stoppedStepDict t ty nm tb stepID] }) := by
  unfold logger.stopProcessingStepLog
  rw [show ({ st with currentStep := stepDict t ty nm tb stepID } : LoggerState).currentStep
      = stepDict t ty nm tb stepID from rfl]
  rw [stoptime_stepDict env t ty nm tb stepID hB]
  dsimp only
  rw [h]
  rfl

/-- With the clock name bound and a run dictionary whose `steps` entry is a
list, `n` start/stop rounds produce exactly the identifiers whose counters
are `len(processingStepLogs) + 1, len + 2, ...`. -/
theorem runStepRounds_eq (env : PyEnv) (t : Timestamp)
    (hB : env.globals.contains "pytz" = true) :
    ∀ (n : Nat) (st : LoggerState) (xs : List PyVal),
    lookupKey st.log "steps" = some (PyVal.list xs) →
    runStepRounds env t n st
      = (countFrom (st.processingStepLogs.length + 1) n).map
          (fun k => PyVal.int (stepIdentifier t.ymdCompact k)) := by
  intro n
  induction n with
  | zero => intro st xs h; rfl
  | succ n ih =>
    intro st xs h
    rw [runStepRounds]
    rw [startStep_ok env t (some "processing") (some "step") (some "table") st hB]
    dsimp only
    rw [stopStep_after_start env t (some "processing") (some "step") (some "table")
        st xs (st.processingStepLogs.length + 1) hB h]
    dsimp only
    rw [ih _ (xs ++ [PyVal.int (stepIdentifier t.ymdCompact (st.processingStepLogs.length + 1))])
        (lookupKey_setKey_self st.log "steps" _)]
    rw [countFrom]
    dsimp only [List.map]
    simp [List.length_append, stepDict, lookupKey]

/-- Claim C4: whenever the clock lookup in `_now` succeeds (the namespace
binds `pytz`; with the module namespace as imported no identifier is ever
produced, see claim C1), the step identifiers produced within one run on a
single calendar day are exactly `stepIdentifier ymd 1, stepIdentifier ymd 2,
...` — the compact current date concatenated with a counter that starts at
1 and increases by exactly 1 per step.  Two independently started runs are
two evaluations of `runIdentifiersInRun` on the same fresh initial state,
so on the same day both counter sequences restart at 1. -/
theorem claim_C4_step_identifiers_sequence :
    ∀ (env : PyEnv) (t : Timestamp) (n : Nat),
    env.globals.contains "pytz" = true →
    runIdentifiersInRun env t n
      = (countFrom 1 n).map (fun k => PyVal.int (stepIdentifier t.ymdCompact k)) := by
  intro env t n hB
  unfold runIdentifiersInRun
  rw [start_ok env t (logger.init "cosas-daily-import" false true) hB]
  dsimp only
  show runStepRounds env t n
      { silent := false, logname := "cosas-daily-import",
        log := startLogDict "cosas-daily-import" t, currentStep := [],
        processingStepLogs := [], printWithTime := true, tz := "Europe/Amsterdam" }
    = (countFrom 1 n).map (fun k => PyVal.int (stepIdentifier t.ymdCompact k))
  exact runStepRounds_eq env t hB n _ [] rfl

/-- Claim C4, witness: under the patched namespace, three steps started on
2023-03-16 get the identifiers 202303161, 202303162, 202303163 — counters
1, 2, 3 appended to the compact date; a second fresh run is the same
evaluation and restarts at 202303161. -/
theorem claim_C4_witness :
    runIdentifiersInRun pyEnvUtilsPatched t2023 3
      = [PyVal.int 202303161, PyVal.int 202303162, PyVal.int 202303163] := by
  rw [claim_C4_step_identifiers_sequence pyEnvUtilsPatched t2023 3 (by decide)]
  rfl

/-- Claim C5: `__stoptime__` is the single operation that stops either kind
of record (the run via `stop`, the step via `stopProcessingStepLog`).  For
any record dictionary whose start time is the instant `ts`, stopping it at
an instant `te` with `ts ≤ te` succeeds (when the clock name resolves; with
the module namespace as imported no record is ever stopped, see claim C1)
and records `elapsedTime = te - ts` seconds, which is non-negative, with the
stored end time `te` at or after the stored start time `ts`. -/
theorem claim_C5_elapsed_time_nonneg (env : PyEnv) (te : Timestamp) (d : PyDict)
    (ts : Timestamp) (hB : env.globals.contains "pytz" = true)
    (hstart : lookupKey d "startTime" = some (PyVal.dt ts))
    (hle : ts.abs ≤ te.abs) :
    (logger.stoptime env te d).1 = none
    ∧ lookupKey (logger.stoptime env te d).2 "elapsedTime"
        = some (PyVal.int (te.abs - ts.abs))
    ∧ 0 ≤ te.abs - ts.abs
    ∧ lookupKey (logger.stoptime env te d).2 "endTime" = some (PyVal.str te.iso)
    ∧ lookupKey (logger.stoptime env te d).2 "startTime" = some (PyVal.str ts.iso)
    ∧ ts.abs ≤ te.abs := by
  have h1 : lookupKey (setKey d "endTime" (PyVal.dt te)) "startTime"
      = some (PyVal.dt ts) := by
    rw [lookupKey_setKey_ne d "endTime" "startTime" _ (by decide)]
    exact hstart
  have h2 : lookupKey (setKey (setKey (setKey d "endTime" (PyVal.dt te))
        "elapsedTime" (PyVal.int (te.abs - ts.abs)))
        "endTime" (PyVal.str (te.strftime "%Y-%m-%dT%H:%M:%SZ"))) "startTime"
      = some (PyVal.dt ts) := by
    rw [lookupKey_setKey_ne _ "endTime" "startTime" _ (by decide)]
    rw [lookupKey_setKey_ne _ "elapsedTime" "startTime" _ (by decide)]
    exact h1
  have hst : logger.stoptime env te d
      = (none, setKey (setKey (setKey (setKey d "endTime" (PyVal.dt te))
          "elapsedTime" (PyVal.int (te.abs - ts.abs)))
          "endTime" (PyVal.str te.iso))
          "startTime" (PyVal.str ts.iso)) := by
    unfold logger.stoptime
    rw [nowRaw_ok env te hB]
    dsimp only
    rw [h1]
    dsimp only [PyVal.subDt]
    rw [h2]
    rfl
  refine ⟨by rw [hst], ?_, by omega, ?_, ?_, hle⟩
  · rw [hst]
    dsimp only
    rw [lookupKey_setKey_ne _ "startTime" "elapsedTime" _ (by decide)]
    rw [lookupKey_setKey_ne _ "endTime" "elapsedTime" _ (by decide)]
    rw [lookupKey_setKey_self]
  · rw [hst]
    dsimp only
    rw [lookupKey_setKey_ne _ "startTime" "endTime" _ (by decide)]
    rw [lookupKey_setKey_self]
  · rw [hst]
    dsimp only
    rw [lookupKey_setKey_self]

/-- Claim C5, witness: stopping at `t2023b` a record started at `t2023`
(7 seconds earlier, same day) records an elapsed time of
`t2023b.abs - t2023.abs` = 7 seconds, non-negative, end time after start
time. -/
theorem claim_C5_witness :
    (logger.stoptime pyEnvUtilsPatched t2023b [("startTime", PyVal.dt t2023)]).1 = none
    ∧ lookupKey (logger.stoptime pyEnvUtilsPatched t2023b
        [("startTime", PyVal.dt t2023)]).2 "elapsedTime"
        = some (PyVal.int (t2023b.abs - t2023.abs))
    ∧ 0 ≤ t2023b.abs - t2023.abs
    ∧ lookupKey (logger.stoptime pyEnvUtilsPatched t2023b
        [("startTime", PyVal.dt t2023)]).2 "endTime" = some (PyVal.str t2023b.iso)
    ∧ lookupKey (logger.stoptime pyEnvUtilsPatched t2023b
        [("startTime", PyVal.dt t2023)]).2 "startTime" = some (PyVal.str t2023.iso)
    ∧ t2023.abs ≤ t2023b.abs :=
  claim_C5_elapsed_time_nonneg pyEnvUtilsPatched t2023b
    [("startTime", PyVal.dt t2023)] t2023 (by decide) rfl (by decide)

/-- On a 4xx or 5xx response, the fetch raises `HTTPError` with the
upstream status and body and yields no result. -/
theorem fetchJson_error (r : HttpResponse) (h4 : 400 ≤ r.status) (h6 : r.status < 600) :
    fetchJson r = Except.error (PyError.httpError r.status r.body) := by
  unfold fetchJson HttpResponse.raiseForStatus
  rw [if_pos (And.intro h4 h6)]
  rfl

/-- On a sub-400 response with a JSON body, the fetch returns the decoded
body. -/
theorem fetchJson_ok (r : HttpResponse) (j : Json) (h : r.status < 400)
    (hj : r.jsonBody = some j) : fetchJson r = Except.ok j := by
  unfold fetchJson HttpResponse.raiseForStatus
  rw [if_neg (fun hc => absurd hc.1 (by omega))]
  unfold HttpResponse.json
  rw [hj]
  rfl

/-- Claim C7, counterexample to the claim as stated: a 304 Not Modified is
not a 2xx status, yet `getPatients` against an upstream answering 304 with
a JSON body returns the decoded body without raising `HttpError` —
`raise_for_status` raises only for statuses in 400..599. -/
theorem claim_C7_counterexample_304_does_not_raise :
    (Alissa.getPatients (Alissa.init "http://alissa.test")
        (fun _ => { status := 304, body := "{}", jsonBody := some (Json.obj []) })
        none none none none none none none none).2
      = Except.ok (Json.obj [])
    ∧ ¬ ((304 : Nat) / 100 = 2) :=
  ⟨rfl, by decide⟩

/-- Claim C7, amended: every GET or POST method of the Alissa class —
`_get`, `_post`, `getPatientByInternalId`, `getPatients`,
`getPatientAnalyses`, `getPatientVariantExportId`,
`getPatientVariantExportData` — raises `HttpError` carrying the upstream
status code and body, and returns no partial result, whenever the upstream
response to the request the method issues has a status in 400..599 (the
range `raise_for_status` covers; a non-2xx status below 400, such as 304,
does not raise, see the counterexample).  In particular `getPatients`
against an upstream returning HTTP 500 raises `HttpError` with status
500. -/
theorem claim_C7_amended_http_error_on_4xx_5xx :
    ∀ (a : Alissa) (up : HttpRequest → HttpResponse),
    (∀ ep ps, 400 ≤ (up (Alissa._get a up ep ps).1).status →
      (up (Alissa._get a up ep ps).1).status < 600 →
      (Alissa._get a up ep ps).2 = Except.error
        (PyError.httpError (up (Alissa._get a up ep ps).1).status
          (up (Alissa._get a up ep ps).1).body))
    ∧ (∀ ep body, 400 ≤ (up (Alissa._post a up ep body).1).status →
      (up (Alissa._post a up ep body).1).status < 600 →
      (Alissa._post a up ep body).2 = Except.error
        (PyError.httpError (up (Alissa._post a up ep body).1).status
          (up (Alissa._post a up ep body).1).body))
    ∧ (∀ pid, 400 ≤ (up (Alissa.getPatientByInternalId a up pid).1).status →
      (up (Alissa.getPatientByInternalId a up pid).1).status < 600 →
      (Alissa.getPatientByInternalId a up pid).2 = Except.error
        (PyError.httpError (up (Alissa.getPatientByInternalId a up pid).1).status
          (up (Alissa.getPatientByInternalId a up pid).1).body))
    ∧ (∀ q1 q2 q3 q4 q5 q6 q7 q8,
      400 ≤ (up (Alissa.getPatients a up q1 q2 q3 q4 q5 q6 q7 q8).1).status →
      (up (Alissa.getPatients a up q1 q2 q3 q4 q5 q6 q7 q8).1).status < 600 →
      (Alissa.getPatients a up q1 q2 q3 q4 q5 q6 q7 q8).2 = Except.error
        (PyError.httpError (up (Alissa.getPatients a up q1 q2 q3 q4 q5 q6 q7 q8).1).status
          (up (Alissa.getPatients a up q1 q2 q3 q4 q5 q6 q7 q8).1).body))
    ∧ (∀ pid, 400 ≤ (up (Alissa.getPatientAnalyses a up pid).1).status →
      (up (Alissa.getPatientAnalyses a up pid).1).status < 600 →
      (Alissa.getPatientAnalyses a up pid).2 = Except.error
        (PyError.httpError (up (Alissa.getPatientAnalyses a up pid).1).status
          (up (Alissa.getPatientAnalyses a up pid).1).body))
    ∧ (∀ aid mfr mir,
      400 ≤ (up (Alissa.getPatientVariantExportId a up aid mfr mir).1).status →
      (up (Alissa.getPatientVariantExportId a up aid mfr mir).1).status < 600 →
      (Alissa.getPatientVariantExportId a up aid mfr mir).2 = Except.error
        (PyError.httpError (up (Alissa.getPatientVariantExportId a up aid mfr mir).1).status
          (up (Alissa.getPatientVariantExportId a up aid mfr mir).1).body))
    ∧ (∀ aid eid,
      400 ≤ (up (Alissa.getPatientVariantExportData a up aid eid).1).status →
      (up (Alissa.getPatientVariantExportData a up aid eid).1).status < 600 →
      (Alissa.getPatientVariantExportData a up aid eid).2 = Except.error
        (PyError.httpError (up (Alissa.getPatientVariantExportData a up aid eid).1).status
          (up (Alissa.getPatientVariantExportData a up aid eid).1).body)) :=
  fun a up =>
    ⟨fun ep ps h4 h6 => fetchJson_error (up (Alissa._get a up ep ps).1) h4 h6,
     fun ep body h4 h6 => fetchJson_error (up (Alissa._post a up ep body).1) h4 h6,
     fun pid h4 h6 => fetchJson_error (up (Alissa.getPatientByInternalId a up pid).1) h4 h6,
     fun q1 q2 q3 q4 q5 q6 q7 q8 h4 h6 =>
       fetchJson_error (up (Alissa.getPatients a up q1 q2 q3 q4 q5 q6 q7 q8).1) h4 h6,
     fun pid h4 h6 => fetchJson_error (up (Alissa.getPatientAnalyses a up pid).1) h4 h6,
     fun aid mfr mir h4 h6 =>
       fetchJson_error (up (Alissa.getPatientVariantExportId a up aid mfr mir).1) h4 h6,
     fun aid eid h4 h6 =>
       fetchJson_error (up (Alissa.getPatientVariantExportData a up aid eid).1) h4 h6⟩

/-- Claim C7, witness scenario: an upstream that answers HTTP 500 with body
"Internal Server Error" makes `getPatients()` (all filters omitted) raise
`HttpError` with status 500 and that body; no partial result is returned. -/
theorem claim_C7_witness_500 :
    (Alissa.getPatients (Alissa.init "http://alissa.test")
        (fun _ => { status := 500, body := "Internal Server Error", jsonBody := none })
        none none none none none none none none).2
      = Except.error (PyError.httpError 500 "Internal Server Error") :=
  (claim_C7_amended_http_error_on_4xx_5xx (Alissa.init "http://alissa.test")
      (fun _ => { status := 500, body := "Internal Server Error", jsonBody := none })
    ).2.2.2.1 none none none none none none none none (by decide) (by decide)

/-- Claim C8: the variant-export workflow is two-phase.
`getPatientVariantExportId` called with both flags left at their source
defaults issues a POST to
`{apiUrl}/patient_analyses/{analysisId}/molecular_variants/exports` whose
JSON body sets `markedForReview` and `markedIncludeInReport` to true, and
returns the decoded JSON of any sub-400 upstream response (so an upstream
body `{exportId: abc123}` is returned as-is);
`getPatientVariantExportData(analysisId, exportId)` then issues a GET to
`{apiUrl}/patient_analyses/{analysisId}/molecular_variants/exports/{exportId}`. -/
theorem claim_C8_export_two_phase :
    ∀ (host : String) (up : HttpRequest → HttpResponse) (analysisId : Int)
      (exportId : String) (j : Json),
    ((Alissa.getPatientVariantExportIdDefault (Alissa.init host) up analysisId).1.method
        = "POST"
     ∧ (Alissa.getPatientVariantExportIdDefault (Alissa.init host) up analysisId).1.uri
        = host ++ "/interpret/api/2/patient_analyses/" ++ toString analysisId
          ++ "/molecular_variants/exports"
     ∧ (Alissa.getPatientVariantExportIdDefault (Alissa.init host) up analysisId).1.jsonBody
        = some (Json.obj [("markedForReview", Json.bool true),
                          ("markedIncludeInReport", Json.bool true)]))
    ∧ ((up (Alissa.getPatientVariantExportIdDefault (Alissa.init host) up analysisId).1).status
          < 400 →
       (up (Alissa.getPatientVariantExportIdDefault (Alissa.init host) up analysisId).1).jsonBody
          = some j →
       (Alissa.getPatientVariantExportIdDefault (Alissa.init host) up analysisId).2
          = Except.ok j)
    ∧ ((Alissa.getPatientVariantExportData (Alissa.init host) up analysisId exportId).1.method
        = "GET"
     ∧ (Alissa.getPatientVariantExportData (Alissa.init host) up analysisId exportId).1.uri
        = host ++ "/interpret/api/2/patient_analyses/" ++ toString analysisId
          ++ "/molecular_variants/exports/" ++ exportId
     ∧ (Alissa.getPatientVariantExportData (Alissa.init host) up analysisId exportId).1.jsonBody
        = none) :=
  fun host up analysisId exportId j => by
    have e : ∀ X : String, ("/interpret/api/2/" : String) ++ ("patient_analyses/" ++ X)
        = "/interpret/api/2/patient_analyses/" ++ X := by
      intro X
      rw [← String.append_assoc]
      rfl
    refine ⟨⟨rfl, ?_, rfl⟩,
      fun h hj => fetchJson_ok
        (up (Alissa.getPatientVariantExportIdDefault (Alissa.init host) up analysisId).1) j h hj,
      rfl, ?_, rfl⟩
    · simp [Alissa.getPatientVariantExportIdDefault, Alissa.getPatientVariantExportId,
        Alissa._post, Alissa.init, String.append_assoc, e]
    · simp [Alissa.getPatientVariantExportData, Alissa._get, Alissa.init,
        String.append_assoc, e]

/-- Claim C8, witness: against the mock upstream,
`getPatientVariantExportId(analysisId=42)` returns the structure whose
`exportId` is "abc123", and the export-data call with that id issues a GET
to `.../patient_analyses/42/molecular_variants/exports/abc123`. -/
theorem claim_C8_witness :
    (Alissa.getPatientVariantExportIdDefault (Alissa.init "http://alissa.test")
        upExportMock 42).2
      = Except.ok (Json.obj [("exportId", Json.str "abc123")])
    ∧ (Alissa.getPatientVariantExportData (Alissa.init "http://alissa.test")
        upExportMock 42 "abc123").1.uri
      = "http://alissa.test/interpret/api/2/patient_analyses/42/molecular_variants/exports/abc123"
    ∧ (Alissa.getPatientVariantExportData (Alissa.init "http://alissa.test")
        upExportMock 42 "abc123").1.method = "GET" := by
  have h := claim_C8_export_two_phase "http://alissa.test" upExportMock 42 "abc123"
    (Json.obj [("exportId", Json.str "abc123")])
  exact ⟨h.2.1 (by decide) rfl, by rw [h.2.2.2.1]; rfl, h.2.2.1⟩

/-- Claim C6: for any base-session attribute set that does not define
`fileImportApi` (the library session never does), `importPandasAsCsv` on a
constructed `Molgenis` instance writes the dataframe to the temporary CSV
file and then raises `AttributeError` for `fileImportApi` — the attribute
read at the `url=` argument of the post; the constructor assigned only
`fileImportEndpoint` — so no HTTP request is ever issued and no upload is
performed (the trace holds the CSV write and nothing else). -/
theorem claim_C6_import_pandas_attribute_error :
    ∀ (base : List (String × String)) (up : HttpRequest → HttpResponse)
      (tmpdir pkg_entity : String) (df : DataFrame),
    lookupKey base "fileImportApi" = none →
    Molgenis.importPandasAsCsv (Molgenis.init base) up tmpdir pkg_entity df
      = ([Event.wroteTempCsv (tmpdir ++ "/" ++ pkg_entity ++ ".csv")
            (Molgenis._dfToCsv df)],
         Except.error (PyError.attributeError "fileImportApi")) := by
  intro base up tmpdir pkg_entity df h
  have h1 : lookupKey (Molgenis.init base).attrs "fileImportApi" = none := by
    unfold Molgenis.init
    rw [lookupKey_setKey_ne base "fileImportEndpoint" "fileImportApi" _ (by decide)]
    exact h
  unfold Molgenis.importPandasAsCsv
  rw [h1]

/-- Claim C6, witness: on a concrete instance and dataframe the call writes
the CSV and stops with `AttributeError("fileImportApi")`; the trace shows
no HTTP post. -/
theorem claim_C6_witness :
    Molgenis.importPandasAsCsv (Molgenis.init molgenisBaseAttrs)
        (fun _ => { status := 201, body := "", jsonBody := none })
        "/tmp/import" "rd_table" dfSample
      = ([Event.wroteTempCsv "/tmp/import/rd_table.csv" (Molgenis._dfToCsv dfSample)],
         Except.error (PyError.attributeError "fileImportApi")) :=
  claim_C6_import_pandas_attribute_error molgenisBaseAttrs
    (fun _ => { status := 201, body := "", jsonBody := none })
    "/tmp/import" "rd_table" dfSample rfl

/-- Claim C9: `importDatatableAsCsv` never raises on the import response.
Whatever status the import endpoint returns, the result is `Except.ok` of
the raw upstream response to the multipart import request, and the trace
logs exactly one line — the success line when the status is 2xx
(`status / 100 == 2`), the failure line (naming the status) otherwise. -/
theorem claim_C9_import_returns_response_both_ways :
    ∀ (base : List (String × String)) (up : HttpRequest → HttpResponse)
      (tmpdir pkg_entity : String) (dt : DataTable),
    (Molgenis.importDatatableAsCsv (Molgenis.init base) up tmpdir pkg_entity dt).2
      = Except.ok (up (Molgenis.importRequest (Molgenis.init base)))
    ∧ (Molgenis.importDatatableAsCsv (Molgenis.init base) up tmpdir pkg_entity dt).1
      = [Event.wroteTempCsv (tmpdir ++ "/" ++ pkg_entity ++ ".csv")
           (Molgenis._datatableToCsv dt),
         Event.httpPost (Molgenis.importRequest (Molgenis.init base)),
         Event.logLine
           (if (up (Molgenis.importRequest (Molgenis.init base))).status / 100 == 2
            then print2Msg ["Imported data into", pkg_entity]
            else print2Msg ["Failed to import data into", pkg_entity, "(",
              toString (up (Molgenis.importRequest (Molgenis.init base))).status, ")"])] := by
  intro base up tmpdir pkg_entity dt
  have hep : lookupKey (Molgenis.init base).attrs "fileImportEndpoint"
      = some ((lookupKey base "_root_url").getD "" ++ "plugin/importwizard/importFile") := by
    unfold Molgenis.init
    exact lookupKey_setKey_self base "fileImportEndpoint" _
  unfold Molgenis.importDatatableAsCsv Molgenis.importRequest
  rw [hep]
  dsimp only
  split <;> rename_i hc <;> refine ⟨rfl, ?_⟩ <;> simp_all

/-- Claim C10: both CSV serialisers (`_datatableToCsv` for datatable
objects, `_dfToCsv` for dataframes) emit exactly the quoted field rows of
the missing-value-replaced table; every field of that output is wrapped in
double quotes, and a cell holding a missing-value marker (`nan`, or `None`
after the replace step) is written as the quoted configured null token
`naRepr` (the empty string). -/
theorem claim_C10_csv_quoting_and_null_token :
    ∀ (dt : DataTable) (df : DataFrame),
    (Molgenis._datatableToCsv dt
        = csvRender (csvFieldRows (replaceNanNone (DataTable.to_pandas dt)))
     ∧ Molgenis._dfToCsv df = csvRender (csvFieldRows (replaceNanNone df)))
    ∧ (∀ row, row ∈ csvFieldRows (replaceNanNone (DataTable.to_pandas dt)) →
        ∀ f, f ∈ row → ∃ b, f = "\x22" ++ b ++ "\x22")
    ∧ (∀ j i row c, (DataTable.to_pandas dt).rows.get? j = some row →
        row.get? i = some c → (c = Cell.nan ∨ c = Cell.pynone) →
        ∃ fields,
          (csvFieldRows (replaceNanNone (DataTable.to_pandas dt))).get? (j + 1)
            = some fields
          ∧ fields.get? i = some (csvQuote naRepr)) := by
  intro dt df
  refine ⟨⟨rfl, rfl⟩, ?_, ?_⟩
  · intro row hrow f hf
    rcases List.mem_cons.mp hrow with h | h
    · subst h
      rcases List.mem_map.mp hf with ⟨a, _, ha⟩
      exact ⟨escapeQuotes a, by rw [← ha]; rfl⟩
    · rcases List.mem_map.mp h with ⟨r, _, hr⟩
      subst hr
      rcases List.mem_map.mp hf with ⟨c, _, hcf⟩
      exact ⟨escapeQuotes (cellText c), by rw [← hcf]; rfl⟩
  · intro j i row c hj hi hcv
    refine ⟨((row.map (fun c => if c = Cell.nan then Cell.pynone else c)).map
      (fun c => csvQuote (cellText c))), ?_, ?_⟩
    · unfold csvFieldRows replaceNanNone
      rw [List.get?_cons_succ]
      dsimp only
      rw [List.get?_map, List.get?_map, hj]
      rfl
    · rw [List.get?_map, List.get?_map, hi]
      rcases hcv with h | h <;> subst h <;> rfl

/-- Claim C10, witness: on the sample table, the missing cell at row 0,
column 1 is rendered as the quoted null token, and the field produced for
the value "A1" is a quoted field. -/
theorem claim_C10_witness :
    (∃ fields,
      (csvFieldRows (replaceNanNone (DataTable.to_pandas dtSample))).get? 1
        = some fields
      ∧ fields.get? 1 = some (csvQuote naRepr))
    ∧ (∃ b, csvQuote "A1" = "\x22" ++ b ++ "\x22") := by
  have h := claim_C10_csv_quoting_and_null_token dtSample dfSample
  refine ⟨h.2.2 0 1 [Cell.str "A1", Cell.nan] Cell.nan rfl rfl (Or.inl rfl), ?_⟩
  refine h.2.1 [csvQuote "A1", csvQuote (cellText Cell.pynone)] ?_ (csvQuote "A1") ?_
  · simp [csvFieldRows, replaceNanNone, dtSample, dfSample, DataTable.to_pandas, cellText]
  · simp
